import Mathlib

/-!
Verification of the BSP MMU bootstrap layer
(`src/bsp/raspberrypi/memory/mmu.rs` of tutorial 15, `virtual_mem_part2_mmio_remap`).

The file shallowly embeds the board-specific memory-management code: the
translation-granule constants, the page-count helper `size_to_num_pages`, the
derivation of the three kernel-image page-slice descriptors, the
`kernel_map_binary` orchestration routine, and the alignment / non-overlap
invariant checks from the test module.  External collaborators that live
outside the analysed file (the generic `PageSliceDescriptor` type, the
linker-provided addresses and sizes, `common::align_down`, and the generic
mapping engine) are modelled from the specification and marked as such.
-/

namespace RaspiMmu

/-- Source constant `KernelGranule::SIZE`: the 64 KiB translation granule chosen by the BSP
(`TranslationGranule<{ 64 * 1024 }>`). -/
def KernelGranule.SIZE : Nat := 64 * 1024

/-- Modelled from the spec: `KernelGranule::SHIFT`, the bit-shift used to
convert byte counts to page counts for the 64 KiB granule (the generic
`TranslationGranule` providing it lives outside the analysed file). -/
def KernelGranule.SHIFT : Nat := 16

/-- The granule size is exactly two to the shift. -/
theorem KernelGranule.size_eq_pow : KernelGranule.SIZE = 2 ^ KernelGranule.SHIFT := by
  decide

/-- Source function `size_to_num_pages`: asserts `size > 0` and `size % SIZE == 0`, then
returns `size >> SHIFT`.  The Rust assertions abort; an abort is modelled as
`none`. -/
def size_to_num_pages (size : Nat) : Option Nat :=
  if ¬ size > 0 then none
  else if ¬ size % KernelGranule.SIZE = 0 then none
  else some (size >>> KernelGranule.SHIFT)

/-- The address kind tag of a page-slice descriptor. -/
inductive AddrKind where
  | Virtual
  | Physical
deriving DecidableEq, Repr

/-- Modelled from the spec: `PageSliceDescriptor<Kind>` (defined in the
generic MMU module outside the analysed file) — a contiguous run of pages
given by an aligned start address plus a page count. -/
structure PageSliceDescriptor (kind : AddrKind) where
  start : Nat
  num_pages : Nat
deriving DecidableEq, Repr

namespace PageSliceDescriptor

/-- Modelled from the spec: the start-address query. -/
def start_addr {k : AddrKind} (d : PageSliceDescriptor k) : Nat :=
  d.start

/-- Modelled from the spec: the byte size of the slice, `count * granule`. -/
def size {k : AddrKind} (d : PageSliceDescriptor k) : Nat :=
  d.num_pages * KernelGranule.SIZE

/-- Modelled from the spec: the (exclusive) end-address query,
`start + count * granule`. -/
def end_addr {k : AddrKind} (d : PageSliceDescriptor k) : Nat :=
  d.start + d.size

/-- Modelled from the spec: the inclusive-end address query. -/
def end_addr_inclusive {k : AddrKind} (d : PageSliceDescriptor k) : Nat :=
  d.end_addr - 1

/-- Modelled from the spec: the "does this descriptor's range contain this
address" predicate used by the overlap checks (closed range from the start
address to the inclusive end address). -/
def contains {k : AddrKind} (d : PageSliceDescriptor k) (addr : Nat) : Bool :=
  decide (d.start_addr ≤ addr ∧ addr ≤ d.end_addr_inclusive)

/-- Modelled from the spec: lossless reinterpretation of a virtual descriptor
as a physical one under identity mapping — same numeric start address, same
page count, different kind tag only (the `From` impl outside the analysed
file). -/
def into_phys (d : PageSliceDescriptor AddrKind.Virtual) :
    PageSliceDescriptor AddrKind.Physical :=
  { start := d.start, num_pages := d.num_pages }

end PageSliceDescriptor

/-- The linker/boot collaborator's reported addresses and sizes (the
`super::*` functions consumed by the analysed file).  They are inputs on the
external boundary, so the embedded functions are parameterised over them. -/
structure BootInfo where
  boot_core_stack_size : Nat
  virt_boot_core_stack_start : Nat
  ro_size : Nat
  virt_ro_start : Nat
  data_size : Nat
  virt_data_start : Nat
  phys_addr_space_end : Nat
deriving DecidableEq, Repr

/-- Source function `virt_stack_page_desc`: the boot core's stack descriptor. -/
def virt_stack_page_desc (bi : BootInfo) :
    Option (PageSliceDescriptor AddrKind.Virtual) :=
  (size_to_num_pages bi.boot_core_stack_size).map fun num_pages =>
    { start := bi.virt_boot_core_stack_start, num_pages := num_pages }

/-- Source function `virt_ro_page_desc`: the read-only pages of the kernel binary. -/
def virt_ro_page_desc (bi : BootInfo) :
    Option (PageSliceDescriptor AddrKind.Virtual) :=
  (size_to_num_pages bi.ro_size).map fun num_pages =>
    { start := bi.virt_ro_start, num_pages := num_pages }

/-- Source function `virt_data_page_desc`: the data pages of the kernel binary. -/
def virt_data_page_desc (bi : BootInfo) :
    Option (PageSliceDescriptor AddrKind.Virtual) :=
  (size_to_num_pages bi.data_size).map fun num_pages =>
    { start := bi.virt_data_start, num_pages := num_pages }

/-- Source function `phys_stack_page_desc`: the virtual stack descriptor reinterpreted as
physical (the binary is still identity mapped). -/
def phys_stack_page_desc (bi : BootInfo) :
    Option (PageSliceDescriptor AddrKind.Physical) :=
  (virt_stack_page_desc bi).map PageSliceDescriptor.into_phys

/-- Source function `phys_ro_page_desc`: the virtual read-only descriptor reinterpreted as
physical. -/
def phys_ro_page_desc (bi : BootInfo) :
    Option (PageSliceDescriptor AddrKind.Physical) :=
  (virt_ro_page_desc bi).map PageSliceDescriptor.into_phys

/-- Source function `phys_data_page_desc`: the virtual data descriptor reinterpreted as
physical. -/
def phys_data_page_desc (bi : BootInfo) :
    Option (PageSliceDescriptor AddrKind.Physical) :=
  (virt_data_page_desc bi).map PageSliceDescriptor.into_phys

/-- Modelled from the spec: `common::align_down` (outside the analysed file),
aligning a value down to the given alignment. -/
def align_down (value alignment : Nat) : Nat :=
  value / alignment * alignment

/-- Source function `phys_addr_space_end_page`: the numeric value of the pointer to the last
page of the physical address space — the end of usable physical memory
aligned down to the 64 KiB granule. -/
def phys_addr_space_end_page (bi : BootInfo) : Nat :=
  align_down bi.phys_addr_space_end KernelGranule.SIZE

/-- The memory-attribute class of `AttributeFields`: cacheable normal memory
(`CacheableDRAM`) or device/MMIO memory.  Modelled from the spec (the enum
lives in the generic MMU module outside the analysed file). -/
inductive MemAttributes where
  | CacheableDRAM
  | Device
deriving DecidableEq, Repr

/-- The access-permission class of `AttributeFields`.  Modelled from the spec
(the enum lives in the generic MMU module outside the analysed file). -/
inductive AccessPermissions where
  | ReadOnly
  | ReadWrite
deriving DecidableEq, Repr

/-- Source struct `AttributeFields`: the memory-attribute / access-permission /
execute-never triple attached to a mapped region.  Modelled from the spec
(the struct lives in the generic MMU module outside the analysed file). -/
structure AttributeFields where
  mem_attributes : MemAttributes
  acc_perms : AccessPermissions
  execute_never : Bool
deriving DecidableEq, Repr

/-- One invocation of the external mapping engine
`generic_mmu::kernel_map_pages_at`: the label, virtual descriptor, physical
descriptor and attributes passed to it. -/
structure MapCall where
  label : String
  virt : PageSliceDescriptor AddrKind.Virtual
  phys : PageSliceDescriptor AddrKind.Physical
  attrs : AttributeFields
deriving DecidableEq, Repr

/-- The observable outcome of `kernel_map_binary`: the engine invocations
made (in order), the translation-table state reached, and the propagated
error message if any (`none` on success, mirroring `Ok(())`). -/
structure MapResult (σ : Type) where
  calls : List MapCall
  state : σ
  error : Option String
deriving Repr

/-- Source function `kernel_map_binary`: maps the three kernel-image regions in the fixed
order stack, read-only, data, invoking the external mapping engine once per
region and propagating its first failure via `?`.

The external engine is a parameter `engine` acting on an abstract
translation-table state `σ`; the global `KERNEL_TABLES` mutation is made
explicit by threading that state.  Each region's descriptors are computed
immediately before its engine call, as in the source, so an assertion abort
(`none`) in a later region's derivation is only reached when the earlier
calls succeeded.  The call trace is recorded so that the order and arguments
of the engine invocations are part of the observable result. -/
def kernel_map_binary {σ : Type} (engine : σ → MapCall → Except String σ)
    (bi : BootInfo) (s : σ) : Option (MapResult σ) :=
  match virt_stack_page_desc bi, phys_stack_page_desc bi with
  | some v1, some p1 =>
    let c1 : MapCall :=
      { label := "Kernel boot-core stack", virt := v1, phys := p1,
        attrs := { mem_attributes := MemAttributes.CacheableDRAM,
                   acc_perms := AccessPermissions.ReadWrite,
                   execute_never := true } }
    match engine s c1 with
    | Except.error msg => some { calls := [c1], state := s, error := some msg }
    | Except.ok s1 =>
      match virt_ro_page_desc bi, phys_ro_page_desc bi with
      | some v2, some p2 =>
        let c2 : MapCall :=
          { label := "Kernel code and RO data", virt := v2, phys := p2,
            attrs := { mem_attributes := MemAttributes.CacheableDRAM,
                       acc_perms := AccessPermissions.ReadOnly,
                       execute_never := false } }
        match engine s1 c2 with
        | Except.error msg => some { calls := [c1, c2], state := s1, error := some msg }
        | Except.ok s2 =>
          match virt_data_page_desc bi, phys_data_page_desc bi with
          | some v3, some p3 =>
            let c3 : MapCall :=
              { label := "Kernel data and bss", virt := v3, phys := p3,
                attrs := { mem_attributes := MemAttributes.CacheableDRAM,
                           acc_perms := AccessPermissions.ReadWrite,
                           execute_never := true } }
            match engine s2 c3 with
            | Except.error msg => some { calls := [c1, c2, c3], state := s2, error := some msg }
            | Except.ok s3 => some { calls := [c1, c2, c3], state := s3, error := none }
          | _, _ => none
      | _, _ => none
  | _, _ => none

/-- The per-descriptor invariant checked by the test
`virt_mem_layout_sections_are_64KiB_aligned`: start and end addresses are
granule-aligned and the end address is not below the start address. -/
def section_is_64KiB_aligned {k : AddrKind} (d : PageSliceDescriptor k) : Prop :=
  d.start_addr % KernelGranule.SIZE = 0 ∧
  d.end_addr % KernelGranule.SIZE = 0 ∧
  d.end_addr ≥ d.start_addr

instance {k : AddrKind} (d : PageSliceDescriptor k) :
    Decidable (section_is_64KiB_aligned d) := by
  unfold section_is_64KiB_aligned; infer_instance

/-- The symmetric pairwise check done by the test
`virt_mem_layout_has_no_overlaps` for one unordered pair: neither range's
start address nor its inclusive end address is contained in the other. -/
def ranges_do_not_overlap {k : AddrKind}
    (first_range second_range : PageSliceDescriptor k) : Bool :=
  !first_range.contains second_range.start_addr &&
  !first_range.contains second_range.end_addr_inclusive &&
  !second_range.contains first_range.start_addr &&
  !second_range.contains first_range.end_addr_inclusive

/-- The test `virt_mem_layout_has_no_overlaps`: every unordered pair of the
three derived virtual descriptors passes the symmetric overlap check.  A
derivation abort (`none`) fails the check, as the test would panic. -/
def virt_mem_layout_has_no_overlaps (bi : BootInfo) : Bool :=
  match virt_stack_page_desc bi, virt_ro_page_desc bi, virt_data_page_desc bi with
  | some d1, some d2, some d3 =>
    ranges_do_not_overlap d1 d2 &&
    ranges_do_not_overlap d1 d3 &&
    ranges_do_not_overlap d2 d3
  | _, _, _ => false

/-- Modelled from the spec: the linker/boot collaborator's concrete values
from the end-to-end scenario of §8 — granule 65536, stack region
(start 0x10000, size 65536), read-only region (start 0x20000, size 131072),
data region (start 0x40000, size 65536); the physical address-space end is
the Raspberry Pi 3 value 0x4000_0000.  The real values come from the linker
script, which is outside the analysed file. -/
def specBootInfo : BootInfo :=
  { boot_core_stack_size := 65536
    virt_boot_core_stack_start := 0x10000
    ro_size := 131072
    virt_ro_start := 0x20000
    data_size := 65536
    virt_data_start := 0x40000
    phys_addr_space_end := 0x40000000 }

instance {k : AddrKind} (d : PageSliceDescriptor k) :
    Decidable (section_is_64KiB_aligned d) :=
  inferInstanceAs (Decidable (d.start_addr % KernelGranule.SIZE = 0 ∧
    d.end_addr % KernelGranule.SIZE = 0 ∧ d.end_addr ≥ d.start_addr))

/-- Helper: on a positive granule multiple, `size_to_num_pages` succeeds with
the shifted value. -/
theorem size_to_num_pages_eq (size : Nat) (h2 : 0 < size)
    (h3 : size % KernelGranule.SIZE = 0) :
    size_to_num_pages size = some (size >>> KernelGranule.SHIFT) := by
  unfold size_to_num_pages
  simp [h2, h3]

/-- Helper: the right shift by `SHIFT` is division by the granule size. -/
theorem shiftRight_SHIFT_eq_div (size : Nat) :
    size >>> KernelGranule.SHIFT = size / KernelGranule.SIZE := by
  rw [Nat.shiftRight_eq_div_pow, KernelGranule.size_eq_pow]

/-- Helper: a descriptor anchored at a granule-aligned start whose page count
comes from a granule-multiple size satisfies the alignment invariant. -/
theorem section_aligned_mk (k : AddrKind) (start sz : Nat)
    (h1 : start % KernelGranule.SIZE = 0) (h3 : sz % KernelGranule.SIZE = 0) :
    section_is_64KiB_aligned
      (@PageSliceDescriptor.mk k start (sz >>> KernelGranule.SHIFT)) := by
  unfold section_is_64KiB_aligned PageSliceDescriptor.start_addr
    PageSliceDescriptor.end_addr PageSliceDescriptor.size
  rw [shiftRight_SHIFT_eq_div]
  simp only
  revert h1 h3
  unfold KernelGranule.SIZE
  omega

/-- C3: for every size that is a positive multiple of the 64 KiB granule,
`size_to_num_pages` returns exactly `size >> SHIFT`, and that page count
times the granule gives back the size with no rounding. -/
theorem size_to_num_pages_exact (size : Nat) (hpos : 0 < size)
    (hmul : size % KernelGranule.SIZE = 0) :
    size_to_num_pages size = some (size >>> KernelGranule.SHIFT) ∧
    (size >>> KernelGranule.SHIFT) * KernelGranule.SIZE = size := by
  refine ⟨size_to_num_pages_eq size hpos hmul, ?_⟩
  rw [shiftRight_SHIFT_eq_div]
  revert hmul
  unfold KernelGranule.SIZE
  omega

/-- Witness for C3 at the read-only region size 131072 of the end-to-end
scenario: two pages, recovering the size exactly. -/
theorem size_to_num_pages_exact_witness :
    0 < 131072 ∧ 131072 % KernelGranule.SIZE = 0 ∧
    (size_to_num_pages 131072 = some (131072 >>> KernelGranule.SHIFT) ∧
     (131072 >>> KernelGranule.SHIFT) * KernelGranule.SIZE = 131072) :=
  ⟨by decide, by decide, size_to_num_pages_exact 131072 (by decide) (by decide)⟩

/-- C4: `size_to_num_pages` aborts (returns no value) whenever the size is
zero or not a multiple of the 64 KiB granule. -/
theorem size_to_num_pages_aborts (size : Nat)
    (h : size = 0 ∨ ¬ size % KernelGranule.SIZE = 0) :
    size_to_num_pages size = none := by
  unfold size_to_num_pages
  rcases h with h | h
  · simp [h]
  · by_cases hz : size > 0
    · simp [hz, h]
    · simp [hz]

/-- Witness for C4 at the negative-scenario size 70000, which is not a
multiple of 65536: the helper aborts rather than truncating. -/
theorem size_to_num_pages_aborts_witness :
    (70000 = 0 ∨ ¬ 70000 % KernelGranule.SIZE = 0) ∧
    size_to_num_pages 70000 = none :=
  ⟨by decide, size_to_num_pages_aborts 70000 (by decide)⟩

/-- C7: when the linker/boot collaborator reports granule-aligned start
addresses and positive granule-multiple sizes, each of the three derived
virtual descriptors exists and has a granule-aligned start address, a
granule-aligned end address, and an end address not below its start
address. -/
theorem virt_mem_layout_sections_are_64KiB_aligned (bi : BootInfo)
    (hs1 : bi.virt_boot_core_stack_start % KernelGranule.SIZE = 0)
    (hs2 : 0 < bi.boot_core_stack_size)
    (hs3 : bi.boot_core_stack_size % KernelGranule.SIZE = 0)
    (hr1 : bi.virt_ro_start % KernelGranule.SIZE = 0)
    (hr2 : 0 < bi.ro_size)
    (hr3 : bi.ro_size % KernelGranule.SIZE = 0)
    (hd1 : bi.virt_data_start % KernelGranule.SIZE = 0)
    (hd2 : 0 < bi.data_size)
    (hd3 : bi.data_size % KernelGranule.SIZE = 0) :
    ∃ d1 d2 d3,
      virt_stack_page_desc bi = some d1 ∧ section_is_64KiB_aligned d1 ∧
      virt_ro_page_desc bi = some d2 ∧ section_is_64KiB_aligned d2 ∧
      virt_data_page_desc bi = some d3 ∧ section_is_64KiB_aligned d3 := by
  refine ⟨PageSliceDescriptor.mk bi.virt_boot_core_stack_start
            (bi.boot_core_stack_size >>> KernelGranule.SHIFT),
          PageSliceDescriptor.mk bi.virt_ro_start
            (bi.ro_size >>> KernelGranule.SHIFT),
          PageSliceDescriptor.mk bi.virt_data_start
            (bi.data_size >>> KernelGranule.SHIFT),
          ?_, ?_, ?_, ?_, ?_, ?_⟩
  · unfold virt_stack_page_desc
    rw [size_to_num_pages_eq _ hs2 hs3]
    rfl
  · exact section_aligned_mk _ _ _ hs1 hs3
  · unfold virt_ro_page_desc
    rw [size_to_num_pages_eq _ hr2 hr3]
    rfl
  · exact section_aligned_mk _ _ _ hr1 hr3
  · unfold virt_data_page_desc
    rw [size_to_num_pages_eq _ hd2 hd3]
    rfl
  · exact section_aligned_mk _ _ _ hd1 hd3

/-- Witness for C7 at the end-to-end scenario's boot information. -/
theorem virt_mem_layout_sections_are_64KiB_aligned_witness :
    (specBootInfo.virt_boot_core_stack_start % KernelGranule.SIZE = 0 ∧
     0 < specBootInfo.boot_core_stack_size ∧
     specBootInfo.boot_core_stack_size % KernelGranule.SIZE = 0 ∧
     specBootInfo.virt_ro_start % KernelGranule.SIZE = 0 ∧
     0 < specBootInfo.ro_size ∧
     specBootInfo.ro_size % KernelGranule.SIZE = 0 ∧
     specBootInfo.virt_data_start % KernelGranule.SIZE = 0 ∧
     0 < specBootInfo.data_size ∧
     specBootInfo.data_size % KernelGranule.SIZE = 0) ∧
    (∃ d1 d2 d3,
      virt_stack_page_desc specBootInfo = some d1 ∧ section_is_64KiB_aligned d1 ∧
      virt_ro_page_desc specBootInfo = some d2 ∧ section_is_64KiB_aligned d2 ∧
      virt_data_page_desc specBootInfo = some d3 ∧ section_is_64KiB_aligned d3) :=
  ⟨by decide,
   virt_mem_layout_sections_are_64KiB_aligned specBootInfo (by decide) (by decide)
     (by decide) (by decide) (by decide) (by decide) (by decide) (by decide)
     (by decide)⟩

/-- C6: the three virtual descriptors derived from the scenario's linker
values are pairwise non-overlapping — for each unordered pair, neither
descriptor's start address nor its inclusive end address is contained in the
other descriptor's range, checked symmetrically in both directions. -/
theorem virt_mem_layout_has_no_overlaps_holds :
    virt_mem_layout_has_no_overlaps specBootInfo = true := by
  decide

/-- C8: for each region, the physical descriptor is the virtual descriptor
reinterpreted with the Physical kind tag — the same numeric start address and
the same page count, with no arithmetic performed on the address. -/
theorem phys_descs_reinterpret_virt_descs (bi : BootInfo) :
    (phys_stack_page_desc bi).map PageSliceDescriptor.start =
      (virt_stack_page_desc bi).map PageSliceDescriptor.start ∧
    (phys_stack_page_desc bi).map PageSliceDescriptor.num_pages =
      (virt_stack_page_desc bi).map PageSliceDescriptor.num_pages ∧
    (phys_ro_page_desc bi).map PageSliceDescriptor.start =
      (virt_ro_page_desc bi).map PageSliceDescriptor.start ∧
    (phys_ro_page_desc bi).map PageSliceDescriptor.num_pages =
      (virt_ro_page_desc bi).map PageSliceDescriptor.num_pages ∧
    (phys_data_page_desc bi).map PageSliceDescriptor.start =
      (virt_data_page_desc bi).map PageSliceDescriptor.start ∧
    (phys_data_page_desc bi).map PageSliceDescriptor.num_pages =
      (virt_data_page_desc bi).map PageSliceDescriptor.num_pages := by
  refine ⟨?_, ?_, ?_, ?_, ?_, ?_⟩ <;>
    first
    | (cases h : virt_stack_page_desc bi <;>
        simp [phys_stack_page_desc, h, PageSliceDescriptor.into_phys])
    | (cases h : virt_ro_page_desc bi <;>
        simp [phys_ro_page_desc, h, PageSliceDescriptor.into_phys])
    | (cases h : virt_data_page_desc bi <;>
        simp [phys_data_page_desc, h, PageSliceDescriptor.into_phys])

/-- C10: the last physical page pointer is the physical address-space end
aligned down to the granule — granule-aligned, at most the end address, and
within one granule of it. -/
theorem phys_addr_space_end_page_spec (bi : BootInfo) :
    phys_addr_space_end_page bi % KernelGranule.SIZE = 0 ∧
    phys_addr_space_end_page bi ≤ bi.phys_addr_space_end ∧
    bi.phys_addr_space_end - phys_addr_space_end_page bi < KernelGranule.SIZE := by
  unfold phys_addr_space_end_page align_down KernelGranule.SIZE
  refine ⟨Nat.mul_mod_left _ _, Nat.div_mul_le_self _ _, ?_⟩
  omega

/-- A concrete engine for witnesses: every call succeeds, and the state
counts the insertions performed. -/
def alwaysOkEngine : Nat → MapCall → Except String Nat :=
  fun s _ => Except.ok (s + 1)

/-- A concrete engine for witnesses: the read-only region's call fails with a
table-capacity error, every other call succeeds. -/
def failOnRoEngine : Nat → MapCall → Except String Nat :=
  fun s c =>
    if c.label = "Kernel code and RO data" then Except.error "translation table full"
    else Except.ok (s + 1)

/-- A concrete engine for witnesses: every call fails with a table-capacity
error, so already the first call fails. -/
def alwaysFailEngine : Nat → MapCall → Except String Nat :=
  fun _ _ => Except.error "translation table full"

/-- A concrete engine for witnesses: the data region's call fails with a
table-capacity error, every other call succeeds. -/
def failOnDataEngine : Nat → MapCall → Except String Nat :=
  fun s c =>
    if c.label = "Kernel data and bss" then Except.error "translation table full"
    else Except.ok (s + 1)

/-- C1: when its three engine calls succeed, `kernel_map_binary` invokes the
external mapping engine exactly three times, in the fixed order boot-core
stack, read-only, data, each call receiving the human-readable label, the
region's derived virtual descriptor, the matching physical descriptor and
that region's attribute set, and the routine returns success. -/
theorem kernel_map_binary_success {σ : Type}
    (engine : σ → MapCall → Except String σ) (bi : BootInfo) (s s1 s2 s3 : σ)
    (v1 v2 v3 : PageSliceDescriptor AddrKind.Virtual)
    (h1 : virt_stack_page_desc bi = some v1)
    (h2 : virt_ro_page_desc bi = some v2)
    (h3 : virt_data_page_desc bi = some v3)
    (e1 : engine s
      { label := "Kernel boot-core stack", virt := v1, phys := v1.into_phys,
        attrs := { mem_attributes := MemAttributes.CacheableDRAM,
                   acc_perms := AccessPermissions.ReadWrite,
                   execute_never := true } } = Except.ok s1)
    (e2 : engine s1
      { label := "Kernel code and RO data", virt := v2, phys := v2.into_phys,
        attrs := { mem_attributes := MemAttributes.CacheableDRAM,
                   acc_perms := AccessPermissions.ReadOnly,
                   execute_never := false } } = Except.ok s2)
    (e3 : engine s2
      { label := "Kernel data and bss", virt := v3, phys := v3.into_phys,
        attrs := { mem_attributes := MemAttributes.CacheableDRAM,
                   acc_perms := AccessPermissions.ReadWrite,
                   execute_never := true } } = Except.ok s3) :
    kernel_map_binary engine bi s = some
      { calls :=
          [{ label := "Kernel boot-core stack", virt := v1, phys := v1.into_phys,
             attrs := { mem_attributes := MemAttributes.CacheableDRAM,
                        acc_perms := AccessPermissions.ReadWrite,
                        execute_never := true } },
           { label := "Kernel code and RO data", virt := v2, phys := v2.into_phys,
             attrs := { mem_attributes := MemAttributes.CacheableDRAM,
                        acc_perms := AccessPermissions.ReadOnly,
                        execute_never := false } },
           { label := "Kernel data and bss", virt := v3, phys := v3.into_phys,
             attrs := { mem_attributes := MemAttributes.CacheableDRAM,
                        acc_perms := AccessPermissions.ReadWrite,
                        execute_never := true } }],
        state := s3, error := none } := by
  have p1 : phys_stack_page_desc bi = some v1.into_phys := by
    rw [phys_stack_page_desc, h1]; rfl
  have p2 : phys_ro_page_desc bi = some v2.into_phys := by
    rw [phys_ro_page_desc, h2]; rfl
  have p3 : phys_data_page_desc bi = some v3.into_phys := by
    rw [phys_data_page_desc, h3]; rfl
  simp only [kernel_map_binary, h1, p1, h2, p2, h3, p3, e1, e2, e3]

/-- Witness for C1: the always-succeeding counting engine on the scenario's
boot information performs exactly the three labelled calls and succeeds. -/
theorem kernel_map_binary_success_witness :
    virt_stack_page_desc specBootInfo = some ⟨0x10000, 1⟩ ∧
    virt_ro_page_desc specBootInfo = some ⟨0x20000, 2⟩ ∧
    virt_data_page_desc specBootInfo = some ⟨0x40000, 1⟩ ∧
    alwaysOkEngine 0
      { label := "Kernel boot-core stack", virt := ⟨0x10000, 1⟩,
        phys := PageSliceDescriptor.into_phys ⟨0x10000, 1⟩,
        attrs := { mem_attributes := MemAttributes.CacheableDRAM,
                   acc_perms := AccessPermissions.ReadWrite,
                   execute_never := true } } = Except.ok 1 ∧
    alwaysOkEngine 1
      { label := "Kernel code and RO data", virt := ⟨0x20000, 2⟩,
        phys := PageSliceDescriptor.into_phys ⟨0x20000, 2⟩,
        attrs := { mem_attributes := MemAttributes.CacheableDRAM,
                   acc_perms := AccessPermissions.ReadOnly,
                   execute_never := false } } = Except.ok 2 ∧
    alwaysOkEngine 2
      { label := "Kernel data and bss", virt := ⟨0x40000, 1⟩,
        phys := PageSliceDescriptor.into_phys ⟨0x40000, 1⟩,
        attrs := { mem_attributes := MemAttributes.CacheableDRAM,
                   acc_perms := AccessPermissions.ReadWrite,
                   execute_never := true } } = Except.ok 3 ∧
    kernel_map_binary alwaysOkEngine specBootInfo 0 = some
      { calls :=
          [{ label := "Kernel boot-core stack", virt := ⟨0x10000, 1⟩,
             phys := PageSliceDescriptor.into_phys ⟨0x10000, 1⟩,
             attrs := { mem_attributes := MemAttributes.CacheableDRAM,
                        acc_perms := AccessPermissions.ReadWrite,
                        execute_never := true } },
           { label := "Kernel code and RO data", virt := ⟨0x20000, 2⟩,
             phys := PageSliceDescriptor.into_phys ⟨0x20000, 2⟩,
             attrs := { mem_attributes := MemAttributes.CacheableDRAM,
                        acc_perms := AccessPermissions.ReadOnly,
                        execute_never := false } },
           { label := "Kernel data and bss", virt := ⟨0x40000, 1⟩,
             phys := PageSliceDescriptor.into_phys ⟨0x40000, 1⟩,
             attrs := { mem_attributes := MemAttributes.CacheableDRAM,
                        acc_perms := AccessPermissions.ReadWrite,
                        execute_never := true } }],
        state := 3, error := none } :=
  ⟨by decide, by decide, by decide, rfl, rfl, rfl,
   kernel_map_binary_success alwaysOkEngine specBootInfo 0 1 2 3
     ⟨0x10000, 1⟩ ⟨0x20000, 2⟩ ⟨0x40000, 1⟩
     (by decide) (by decide) (by decide) rfl rfl rfl⟩

/-- C2: under the same successful-engine run, the attribute set passed for
each region is exactly — boot-core stack: cacheable DRAM, read-write,
execute-never; code and read-only data: cacheable DRAM, read-only,
executable; data and bss: cacheable DRAM, read-write, execute-never. -/
theorem kernel_map_binary_attribute_sets {σ : Type}
    (engine : σ → MapCall → Except String σ) (bi : BootInfo) (s s1 s2 s3 : σ)
    (v1 v2 v3 : PageSliceDescriptor AddrKind.Virtual)
    (h1 : virt_stack_page_desc bi = some v1)
    (h2 : virt_ro_page_desc bi = some v2)
    (h3 : virt_data_page_desc bi = some v3)
    (e1 : engine s
      { label := "Kernel boot-core stack", virt := v1, phys := v1.into_phys,
        attrs := { mem_attributes := MemAttributes.CacheableDRAM,
                   acc_perms := AccessPermissions.ReadWrite,
                   execute_never := true } } = Except.ok s1)
    (e2 : engine s1
      { label := "Kernel code and RO data", virt := v2, phys := v2.into_phys,
        attrs := { mem_attributes := MemAttributes.CacheableDRAM,
                   acc_perms := AccessPermissions.ReadOnly,
                   execute_never := false } } = Except.ok s2)
    (e3 : engine s2
      { label := "Kernel data and bss", virt := v3, phys := v3.into_phys,
        attrs := { mem_attributes := MemAttributes.CacheableDRAM,
                   acc_perms := AccessPermissions.ReadWrite,
                   execute_never := true } } = Except.ok s3) :
    (kernel_map_binary engine bi s).map
        (fun r => r.calls.map fun c => (c.label, c.attrs)) = some
      [("Kernel boot-core stack",
        { mem_attributes := MemAttributes.CacheableDRAM,
          acc_perms := AccessPermissions.ReadWrite, execute_never := true }),
       ("Kernel code and RO data",
        { mem_attributes := MemAttributes.CacheableDRAM,
          acc_perms := AccessPermissions.ReadOnly, execute_never := false }),
       ("Kernel data and bss",
        { mem_attributes := MemAttributes.CacheableDRAM,
          acc_perms := AccessPermissions.ReadWrite, execute_never := true })] := by
  have p1 : phys_stack_page_desc bi = some v1.into_phys := by
    rw [phys_stack_page_desc, h1]; rfl
  have p2 : phys_ro_page_desc bi = some v2.into_phys := by
    rw [phys_ro_page_desc, h2]; rfl
  have p3 : phys_data_page_desc bi = some v3.into_phys := by
    rw [phys_data_page_desc, h3]; rfl
  simp only [kernel_map_binary, h1, p1, h2, p2, h3, p3, e1, e2, e3,
    Option.map, List.map]

/-- Witness for C2: the labelled attribute triples of the successful run on
the scenario's boot information. -/
theorem kernel_map_binary_attribute_sets_witness :
    virt_stack_page_desc specBootInfo = some ⟨0x10000, 1⟩ ∧
    virt_ro_page_desc specBootInfo = some ⟨0x20000, 2⟩ ∧
    virt_data_page_desc specBootInfo = some ⟨0x40000, 1⟩ ∧
    (kernel_map_binary alwaysOkEngine specBootInfo 0).map
        (fun r => r.calls.map fun c => (c.label, c.attrs)) = some
      [("Kernel boot-core stack",
        { mem_attributes := MemAttributes.CacheableDRAM,
          acc_perms := AccessPermissions.ReadWrite, execute_never := true }),
       ("Kernel code and RO data",
        { mem_attributes := MemAttributes.CacheableDRAM,
          acc_perms := AccessPermissions.ReadOnly, execute_never := false }),
       ("Kernel data and bss",
        { mem_attributes := MemAttributes.CacheableDRAM,
          acc_perms := AccessPermissions.ReadWrite, execute_never := true })] :=
  ⟨by decide, by decide, by decide,
   kernel_map_binary_attribute_sets alwaysOkEngine specBootInfo 0 1 2 3
     ⟨0x10000, 1⟩ ⟨0x20000, 2⟩ ⟨0x40000, 1⟩
     (by decide) (by decide) (by decide) rfl rfl rfl⟩

/-- C5: if any one of the three engine calls fails, `kernel_map_binary`
returns that error immediately — the engine is never invoked for any later
region, and the table state produced by the insertions already performed for
the earlier regions is retained, not rolled back.  The three conjuncts cover
a failure at the first, second and third call respectively. -/
theorem kernel_map_binary_propagates_first_error {σ : Type}
    (engine : σ → MapCall → Except String σ) (bi : BootInfo) (s : σ)
    (v1 v2 v3 : PageSliceDescriptor AddrKind.Virtual)
    (h1 : virt_stack_page_desc bi = some v1)
    (h2 : virt_ro_page_desc bi = some v2)
    (h3 : virt_data_page_desc bi = some v3) :
    (∀ msg,
      engine s
        { label := "Kernel boot-core stack", virt := v1, phys := v1.into_phys,
          attrs := { mem_attributes := MemAttributes.CacheableDRAM,
                     acc_perms := AccessPermissions.ReadWrite,
                     execute_never := true } } = Except.error msg →
      kernel_map_binary engine bi s = some
        { calls :=
            [{ label := "Kernel boot-core stack", virt := v1, phys := v1.into_phys,
               attrs := { mem_attributes := MemAttributes.CacheableDRAM,
                          acc_perms := AccessPermissions.ReadWrite,
                          execute_never := true } }],
          state := s, error := some msg }) ∧
    (∀ s1 msg,
      engine s
        { label := "Kernel boot-core stack", virt := v1, phys := v1.into_phys,
          attrs := { mem_attributes := MemAttributes.CacheableDRAM,
                     acc_perms := AccessPermissions.ReadWrite,
                     execute_never := true } } = Except.ok s1 →
      engine s1
        { label := "Kernel code and RO data", virt := v2, phys := v2.into_phys,
          attrs := { mem_attributes := MemAttributes.CacheableDRAM,
                     acc_perms := AccessPermissions.ReadOnly,
                     execute_never := false } } = Except.error msg →
      kernel_map_binary engine bi s = some
        { calls :=
            [{ label := "Kernel boot-core stack", virt := v1, phys := v1.into_phys,
               attrs := { mem_attributes := MemAttributes.CacheableDRAM,
                          acc_perms := AccessPermissions.ReadWrite,
                          execute_never := true } },
             { label := "Kernel code and RO data", virt := v2, phys := v2.into_phys,
               attrs := { mem_attributes := MemAttributes.CacheableDRAM,
                          acc_perms := AccessPermissions.ReadOnly,
                          execute_never := false } }],
          state := s1, error := some msg }) ∧
    (∀ s1 s2 msg,
      engine s
        { label := "Kernel boot-core stack", virt := v1, phys := v1.into_phys,
          attrs := { mem_attributes := MemAttributes.CacheableDRAM,
                     acc_perms := AccessPermissions.ReadWrite,
                     execute_never := true } } = Except.ok s1 →
      engine s1
        { label := "Kernel code and RO data", virt := v2, phys := v2.into_phys,
          attrs := { mem_attributes := MemAttributes.CacheableDRAM,
                     acc_perms := AccessPermissions.ReadOnly,
                     execute_never := false } } = Except.ok s2 →
      engine s2
        { label := "Kernel data and bss", virt := v3, phys := v3.into_phys,
          attrs := { mem_attributes := MemAttributes.CacheableDRAM,
                     acc_perms := AccessPermissions.ReadWrite,
                     execute_never := true } } = Except.error msg →
      kernel_map_binary engine bi s = some
        { calls :=
            [{ label := "Kernel boot-core stack", virt := v1, phys := v1.into_phys,
               attrs := { mem_attributes := MemAttributes.CacheableDRAM,
                          acc_perms := AccessPermissions.ReadWrite,
                          execute_never := true } },
             { label := "Kernel code and RO data", virt := v2, phys := v2.into_phys,
               attrs := { mem_attributes := MemAttributes.CacheableDRAM,
                          acc_perms := AccessPermissions.ReadOnly,
                          execute_never := false } },
             { label := "Kernel data and bss", virt := v3, phys := v3.into_phys,
               attrs := { mem_attributes := MemAttributes.CacheableDRAM,
                          acc_perms := AccessPermissions.ReadWrite,
                          execute_never := true } }],
          state := s2, error := some msg }) := by
  have p1 : phys_stack_page_desc bi = some v1.into_phys := by
    rw [phys_stack_page_desc, h1]; rfl
  have p2 : phys_ro_page_desc bi = some v2.into_phys := by
    rw [phys_ro_page_desc, h2]; rfl
  have p3 : phys_data_page_desc bi = some v3.into_phys := by
    rw [phys_data_page_desc, h3]; rfl
  refine ⟨?_, ?_, ?_⟩
  · intro msg e
    simp only [kernel_map_binary, h1, p1, e]
  · intro s1 msg e1 e2
    simp only [kernel_map_binary, h1, p1, h2, p2, e1, e2]
  · intro s1 s2 msg e1 e2 e3
    simp only [kernel_map_binary, h1, p1, h2, p2, h3, p3, e1, e2, e3]

/-- Witness for C5, exercising all three failure positions: an engine that
rejects every call stops the mapper after the first call with the initial
state; an engine that rejects the read-only region stops it after the second
call, keeping the stack insertion's state; an engine that rejects the data
region stops it after the third call, keeping the first two insertions'
state. -/
theorem kernel_map_binary_propagates_first_error_witness :
    virt_stack_page_desc specBootInfo = some ⟨0x10000, 1⟩ ∧
    virt_ro_page_desc specBootInfo = some ⟨0x20000, 2⟩ ∧
    virt_data_page_desc specBootInfo = some ⟨0x40000, 1⟩ ∧
    alwaysFailEngine 0
      { label := "Kernel boot-core stack", virt := ⟨0x10000, 1⟩,
        phys := PageSliceDescriptor.into_phys ⟨0x10000, 1⟩,
        attrs := { mem_attributes := MemAttributes.CacheableDRAM,
                   acc_perms := AccessPermissions.ReadWrite,
                   execute_never := true } } = Except.error "translation table full" ∧
    kernel_map_binary alwaysFailEngine specBootInfo 0 = some
      { calls :=
          [{ label := "Kernel boot-core stack", virt := ⟨0x10000, 1⟩,
             phys := PageSliceDescriptor.into_phys ⟨0x10000, 1⟩,
             attrs := { mem_attributes := MemAttributes.CacheableDRAM,
                        acc_perms := AccessPermissions.ReadWrite,
                        execute_never := true } }],
        state := 0, error := some "translation table full" } ∧
    failOnRoEngine 0
      { label := "Kernel boot-core stack", virt := ⟨0x10000, 1⟩,
        phys := PageSliceDescriptor.into_phys ⟨0x10000, 1⟩,
        attrs := { mem_attributes := MemAttributes.CacheableDRAM,
                   acc_perms := AccessPermissions.ReadWrite,
                   execute_never := true } } = Except.ok 1 ∧
    failOnRoEngine 1
      { label := "Kernel code and RO data", virt := ⟨0x20000, 2⟩,
        phys := PageSliceDescriptor.into_phys ⟨0x20000, 2⟩,
        attrs := { mem_attributes := MemAttributes.CacheableDRAM,
                   acc_perms := AccessPermissions.ReadOnly,
                   execute_never := false } } = Except.error "translation table full" ∧
    kernel_map_binary failOnRoEngine specBootInfo 0 = some
      { calls :=
          [{ label := "Kernel boot-core stack", virt := ⟨0x10000, 1⟩,
             phys := PageSliceDescriptor.into_phys ⟨0x10000, 1⟩,
             attrs := { mem_attributes := MemAttributes.CacheableDRAM,
                        acc_perms := AccessPermissions.ReadWrite,
                        execute_never := true } },
           { label := "Kernel code and RO data", virt := ⟨0x20000, 2⟩,
             phys := PageSliceDescriptor.into_phys ⟨0x20000, 2⟩,
             attrs := { mem_attributes := MemAttributes.CacheableDRAM,
                        acc_perms := AccessPermissions.ReadOnly,
                        execute_never := false } }],
        state := 1, error := some "translation table full" } ∧
    failOnDataEngine 2
      { label := "Kernel data and bss", virt := ⟨0x40000, 1⟩,
        phys := PageSliceDescriptor.into_phys ⟨0x40000, 1⟩,
        attrs := { mem_attributes := MemAttributes.CacheableDRAM,
                   acc_perms := AccessPermissions.ReadWrite,
                   execute_never := true } } = Except.error "translation table full" ∧
    kernel_map_binary failOnDataEngine specBootInfo 0 = some
      { calls :=
          [{ label := "Kernel boot-core stack", virt := ⟨0x10000, 1⟩,
             phys := PageSliceDescriptor.into_phys ⟨0x10000, 1⟩,
             attrs := { mem_attributes := MemAttributes.CacheableDRAM,
                        acc_perms := AccessPermissions.ReadWrite,
                        execute_never := true } },
           { label := "Kernel code and RO data", virt := ⟨0x20000, 2⟩,
             phys := PageSliceDescriptor.into_phys ⟨0x20000, 2⟩,
             attrs := { mem_attributes := MemAttributes.CacheableDRAM,
                        acc_perms := AccessPermissions.ReadOnly,
                        execute_never := false } },
           { label := "Kernel data and bss", virt := ⟨0x40000, 1⟩,
             phys := PageSliceDescriptor.into_phys ⟨0x40000, 1⟩,
             attrs := { mem_attributes := MemAttributes.CacheableDRAM,
                        acc_perms := AccessPermissions.ReadWrite,
                        execute_never := true } }],
        state := 2, error := some "translation table full" } := by
  refine ⟨by decide, by decide, by decide, rfl, ?_, rfl, rfl, ?_, rfl, ?_⟩
  · exact (kernel_map_binary_propagates_first_error alwaysFailEngine specBootInfo 0
      ⟨0x10000, 1⟩ ⟨0x20000, 2⟩ ⟨0x40000, 1⟩ (by decide) (by decide) (by decide)).1
      "translation table full" rfl
  · exact (kernel_map_binary_propagates_first_error failOnRoEngine specBootInfo 0
      ⟨0x10000, 1⟩ ⟨0x20000, 2⟩ ⟨0x40000, 1⟩ (by decide) (by decide) (by decide)).2.1
      1 "translation table full" rfl rfl
  · exact (kernel_map_binary_propagates_first_error failOnDataEngine specBootInfo 0
      ⟨0x10000, 1⟩ ⟨0x20000, 2⟩ ⟨0x40000, 1⟩ (by decide) (by decide) (by decide)).2.2
      1 2 "translation table full" rfl rfl rfl

end RaspiMmu
